import Mathlib

/-!
Verification of the ThermoSense advisory backend.

The embedding translates the three source modules:
* `gemini_advisor.py` — `get_gemini_advice`, with the external reasoning
  service's outcome passed in as an `Except` value (success carries the
  response text; failure takes the `except` branch of the Python code).
* `main.py` — the `/api/advice` handler `get_advice`, with the ML stage
  (joblib load, one-hot encoding, `model.predict`) abstracted as an
  `Except String ℚ` input; a raised exception maps to an HTTP 500 error.
* `sensor_reader.py` — `SensorReader.get_temperature_info`, with the two
  WMI providers (OpenHardwareMonitor sensor list, MSAcpi thermal zone)
  passed in as `Except` values and the simulated fallback's random base
  temperature as a parameter.

Python floats are modelled as exact rationals (ℚ); `Optional[float]` as
`Option ℚ`.
-/

namespace ThermoSense

/-- Result dictionary of `get_gemini_advice` (gemini_advisor.py lines 61-85). -/
structure Advice where
  natural_language_tip : String
  alert_level : String
  optional_action : Option String
  predicted_health_impact : ℚ
deriving Repr, DecidableEq

/-- Python truthiness test `cpu_temp and cpu_temp > th`: `None` and `0.0` are
falsy, so the comparison runs only for a present, nonzero value. -/
def cpuCheck (cpu_temp : Option ℚ) (th : ℚ) : Prop :=
  match cpu_temp with
  | none => False
  | some c => c ≠ 0 ∧ th < c

instance (cpu_temp : Option ℚ) (th : ℚ) : Decidable (cpuCheck cpu_temp th) :=
  match cpu_temp with
  | none => isFalse (fun h => h)
  | some c => inferInstanceAs (Decidable (c ≠ 0 ∧ th < c))

/-- Alert level and optional action of the success path
(gemini_advisor.py lines 42-50). -/
def alertPair (battery_temp : ℚ) (cpu_temp : Option ℚ) : String × Option String :=
  if battery_temp > 45 ∨ cpuCheck cpu_temp 85 then
    ("danger", some "Immediate cooling required - shut down intensive tasks")
  else if battery_temp > 38 ∨ cpuCheck cpu_temp 70 then
    ("warning", some "Monitor temperature and reduce workload")
  else
    ("safe", none)

/-- Health impact accumulation of the success path before the cap
(gemini_advisor.py lines 53-59). -/
def impactScore (battery_temp : ℚ) (device_state : String) (cpu_temp : Option ℚ) : ℚ :=
  (if battery_temp > 25 then (battery_temp - 25) * 0.003 else 0)
    + (if device_state = "charging" ∧ battery_temp > 30 then 0.02 else 0)
    + (if cpuCheck cpu_temp 60 then (cpu_temp.getD 0 - 60) * 0.001 else 0)

/-- Canned tip of the danger-flavoured fallback branch
(gemini_advisor.py line 74). -/
def fallbackDangerTip : String :=
  "⚠️ High battery temperature detected. Please close intensive applications and allow your device to cool down. Avoid charging until temperature normalizes."

/-- Canned tip of the safe-flavoured fallback branch
(gemini_advisor.py line 81). -/
def fallbackSafeTip : String :=
  "✅ Your device temperature is within normal range. Continue regular usage while monitoring for any changes."

/-- `get_gemini_advice` (gemini_advisor.py lines 12-85). The `service`
argument is the outcome of the external call (`genai` model construction,
`generate_content`, `response.text`); any exception there takes the
fallback branch. The deterministic threshold/score arithmetic cannot
raise, so try-block failure coincides with service failure. -/
def get_gemini_advice (battery_temp ambient_temp : ℚ) (device_state : String)
    (battery_level : ℤ) (cpu_temp : Option ℚ)
    (service : Except String String) : Advice :=
  match service with
  | Except.ok advice_text =>
      { natural_language_tip := advice_text
        alert_level := (alertPair battery_temp cpu_temp).1
        optional_action := (alertPair battery_temp cpu_temp).2
        predicted_health_impact :=
          min (impactScore battery_temp device_state cpu_temp) 0.15 }
  | Except.error _ =>
      if battery_temp > 40 then
        { natural_language_tip := fallbackDangerTip
          alert_level := "danger"
          optional_action := some "Stop charging and close heavy applications"
          predicted_health_impact := 0.1 }
      else
        { natural_language_tip := fallbackSafeTip
          alert_level := "safe"
          optional_action := none
          predicted_health_impact := 0.02 }

/-- The spec's deterministic scoring rule, transcribed from its words for
the refinement comparison: `max(0, batteryTemp − 25) * 0.003 + (0.02 if
charging and batteryTemp > 30) + max(0, cpuTemp − 60) * 0.001 if cpuTemp
present`, then clamp to `[0, 0.15]`. -/
def specImpactRule (battery_temp : ℚ) (device_state : String) (cpu_temp : Option ℚ) : ℚ :=
  min (max (max 0 (battery_temp - 25) * 0.003
    + (if device_state = "charging" ∧ battery_temp > 30 then 0.02 else 0)
    + (match cpu_temp with
       | some c => max 0 (c - 60) * 0.001
       | none => 0)) 0) 0.15

/-- Request body of `/api/advice` (main.py `SensorInput`). -/
structure SensorInput where
  battery_temp : ℚ
  ambient_temp : ℚ
  device_state : String
  battery_level : ℤ := 75
  cpu_temp : Option ℚ := none
deriving Repr, DecidableEq

/-- Response body of `/api/advice` (main.py lines 116-121). -/
structure AdviceResponse where
  predicted_health_impact : ℚ
  alert_level : String
  natural_language_tip : String
  optional_action : Option String
deriving Repr, DecidableEq

/-- Python `round(x, 5)` on the model prediction (main.py line 117).
Modelled as rounding to the nearest multiple of 10⁻⁵ (tie behaviour
differs from Python's bankers rounding but no theorem sits on a tie). -/
def roundTo5 (x : ℚ) : ℚ := round (x * 100000) / 100000

/-- `/api/advice` handler (main.py lines 87-133). `modelResult` abstracts
the ML stage: `joblib.load`, encoder transform and `model.predict`; if any
of these raises, the surrounding `try` turns it into an HTTP 500 error
(`Except.error 500`). On success the response combines the rounded,
unclamped model prediction with the Gemini advisory fields. The history
append (`advisory_history.py`, not part of the sources) is assumed not to
raise. -/
def get_advice (modelResult : Except String ℚ) (service : Except String String)
    (input : SensorInput) : Except Nat AdviceResponse :=
  match modelResult with
  | Except.error _ => Except.error 500
  | Except.ok impact =>
      let g := get_gemini_advice input.battery_temp input.ambient_temp
        input.device_state input.battery_level input.cpu_temp service
      Except.ok
        { predicted_health_impact := roundTo5 impact
          alert_level := g.alert_level
          natural_language_tip := g.natural_language_tip
          optional_action := g.optional_action }

/-- One WMI sensor row as consumed by the OpenHardwareMonitor loop
(sensor_reader.py lines 62-72): its `SensorType`, `Name` and `Value`. -/
structure Sensor where
  sensorType : String
  name : String
  value : ℚ
deriving Repr, DecidableEq

/-- The `temperatures` dictionary of `get_temperature_info`
(sensor_reader.py lines 48-53). -/
structure TempInfo where
  cpu : Option ℚ
  battery : Option ℚ
  system : Option ℚ
  source : String
deriving Repr, DecidableEq

/-- Lower-casing of a sensor name, `sensor.Name.lower()`. -/
def lowerStr (s : String) : String := s.map Char.toLower

/-- Does `pat` occur as a contiguous run at the head of `s`? -/
def leadMatch : List Char → List Char → Bool
  | [], _ => true
  | _ :: _, [] => false
  | p :: ps, c :: cs => p == c && leadMatch ps cs

/-- Does `pat` occur as a contiguous run anywhere in `s`?  Models the
Python substring test `pat in name`. -/
def hasSub (pat : List Char) : List Char → Bool
  | [] => leadMatch pat []
  | c :: cs => leadMatch pat (c :: cs) || hasSub pat cs

/-- `pat in s` on strings. -/
def strHasSub (pat s : String) : Bool := hasSub pat.toList s.toList

/-- The OpenHardwareMonitor sensor loop (sensor_reader.py lines 62-72):
for each temperature sensor, the first name matching a category
(case-insensitive substring, `if`/`elif` chain) fills that category. -/
def scanSensors : List Sensor → TempInfo → TempInfo
  | [], t => t
  | s :: rest, t =>
      let t' :=
        if s.sensorType = "Temperature" then
          let name := lowerStr s.name
          if strHasSub "cpu" name ∧ t.cpu = none then
            { t with cpu := some s.value }
          else if strHasSub "battery" name ∧ t.battery = none then
            { t with battery := some s.value }
          else if strHasSub "system" name ∧ t.system = none then
            { t with system := some s.value }
          else t
        else t
      scanSensors rest t'

/-- The provider cascade of `get_temperature_info` (sensor_reader.py lines
58-92), before the fill-in step.  `ohm` is the OpenHardwareMonitor query:
`Except.ok` carries the sensor list, `Except.error` is a raised exception.
`acpi` is the MSAcpi query tried only when `ohm` failed: `Except.ok (some
raw)` is a non-empty zone list with first raw reading `raw` (tenths of
Kelvin), `Except.ok none` an empty list, `Except.error` a raised
exception. -/
def providerTemps (ohm : Except Unit (List Sensor))
    (acpi : Except Unit (Option ℚ)) : TempInfo :=
  let init : TempInfo := { cpu := none, battery := none, system := none, source := "fallback" }
  match ohm with
  | Except.ok sensors => { scanSensors sensors init with source := "OpenHardwareMonitor" }
  | Except.error _ =>
      match acpi with
      | Except.ok (some raw) =>
          { init with system := some (raw / 10 - 273.15), source := "MSAcpi" }
      | Except.ok none => init
      | Except.error _ => init

/-- The fill-in step of `get_temperature_info` (sensor_reader.py lines
95-100): missing cpu becomes 45.0, then missing battery becomes cpu*0.8,
then missing system becomes cpu*0.7. -/
def fillTemps (t : TempInfo) : TempInfo :=
  let t1 := if t.cpu = none then { t with cpu := some 45.0 } else t
  let t2 := if t1.battery = none then { t1 with battery := some (t1.cpu.getD 0 * 0.8) } else t1
  if t2.system = none then { t2 with system := some (t2.cpu.getD 0 * 0.7) } else t2

/-- `_get_fallback_temperature_info` (sensor_reader.py lines 164-173) with
the random `base_temp` passed in. -/
def simulatedTemps (base_temp : ℚ) : TempInfo :=
  { cpu := some base_temp
    battery := some (base_temp * 0.8)
    system := some (base_temp * 0.7)
    source := "simulated" }

/-- `SensorReader.get_temperature_info` (sensor_reader.py lines 46-102).
`available` is `is_windows and wmi_client is not None`; when false the
simulated fallback is returned at once, otherwise the provider cascade
runs and missing categories are filled in.  The function is total: no
exception escapes. -/
def get_temperature_info (available : Bool) (ohm : Except Unit (List Sensor))
    (acpi : Except Unit (Option ℚ)) (base_temp : ℚ) : TempInfo :=
  if available then fillTemps (providerTemps ohm acpi)
  else simulatedTemps base_temp

/-- A benign concrete request body used by the concrete evaluations:
`battery_temp=30, ambient_temp=25, device_state="idle"`, defaults
elsewhere. -/
def sampleInput : SensorInput :=
  { battery_temp := 30, ambient_temp := 25, device_state := "idle"
    battery_level := 75, cpu_temp := none }

lemma cpuCheck_not_none (th : ℚ) : ¬ cpuCheck none th := fun h => h

lemma cpuCheck_some_iff (c th : ℚ) : cpuCheck (some c) th ↔ c ≠ 0 ∧ th < c := Iff.rfl

/-- The accumulated impact score is a sum of nonnegative contributions. -/
lemma impactScore_nonneg (battery_temp : ℚ) (device_state : String)
    (cpu_temp : Option ℚ) : 0 ≤ impactScore battery_temp device_state cpu_temp := by
  unfold impactScore
  refine add_nonneg (add_nonneg ?_ ?_) ?_
  · split_ifs with h
    · nlinarith
    · exact le_refl 0
  · split_ifs <;> norm_num
  · split_ifs with h
    · rcases cpu_temp with _ | c
      · exact absurd h (cpuCheck_not_none 60)
      · obtain ⟨-, hc⟩ := (cpuCheck_some_iff c 60).mp h
        simp only [Option.getD_some]
        nlinarith
    · exact le_refl 0

/-- The code's accumulation equals the spec rule's unclamped base sum. -/
lemma impactScore_eq_base (battery_temp : ℚ) (device_state : String)
    (cpu_temp : Option ℚ) :
    impactScore battery_temp device_state cpu_temp =
      max 0 (battery_temp - 25) * 0.003
        + (if device_state = "charging" ∧ battery_temp > 30 then 0.02 else 0)
        + (match cpu_temp with
           | some c => max 0 (c - 60) * 0.001
           | none => 0) := by
  unfold impactScore
  congr 1
  · congr 1
    rcases lt_or_le 25 battery_temp with h | h
    · rw [if_pos h, max_eq_right (by linarith)]
    · rw [if_neg (not_lt.mpr h), max_eq_left (by linarith), zero_mul]
  · rcases cpu_temp with _ | c
    · rw [if_neg (cpuCheck_not_none 60)]
    · by_cases hc : cpuCheck (some c) 60
      · obtain ⟨-, h60⟩ := (cpuCheck_some_iff c 60).mp hc
        rw [if_pos hc]
        simp only [Option.getD_some]
        rw [max_eq_right (by linarith)]
      · rw [if_neg hc]
        have h60 : c - 60 ≤ 0 := by
          by_cases h0 : c = 0
          · rw [h0]; norm_num
          · have : ¬ (60 : ℚ) < c := fun hlt => hc ((cpuCheck_some_iff c 60).mpr ⟨h0, hlt⟩)
            linarith [not_lt.mp this]
        show (0 : ℚ) = max 0 (c - 60) * 0.001
        rw [max_eq_left h60, zero_mul]

/-- The `fillTemps` step resolves each category to its provider value when
present and to the derived default otherwise. -/
lemma fillTemps_eq (t : TempInfo) :
    fillTemps t =
      { cpu := some (t.cpu.getD 45)
        battery := some (t.battery.getD (t.cpu.getD 45 * 0.8))
        system := some (t.system.getD (t.cpu.getD 45 * 0.7))
        source := t.source } := by
  rcases t with ⟨_ | c, _ | b, _ | s, src⟩ <;> simp [fillTemps] <;> norm_num

/-- On a failed service call `get_gemini_advice` reduces to the two-case
fallback. -/
lemma gemini_error_eq (battery_temp ambient_temp : ℚ) (device_state : String)
    (battery_level : ℤ) (cpu_temp : Option ℚ) (err : String) :
    get_gemini_advice battery_temp ambient_temp device_state battery_level cpu_temp
        (Except.error err) =
      if battery_temp > 40 then
        { natural_language_tip := fallbackDangerTip
          alert_level := "danger"
          optional_action := some "Stop charging and close heavy applications"
          predicted_health_impact := 0.1 }
      else
        { natural_language_tip := fallbackSafeTip
          alert_level := "safe"
          optional_action := none
          predicted_health_impact := 0.02 } := rfl

/-- C1 (counterexample): the claim that every `/api/advice` success
response has `predictedHealthImpact` in `[0, 0.15]` is false — the handler
returns the model prediction unclamped. With a model output of `0.5` on a
benign input the response carries `0.5 > 0.15`. -/
theorem C1_counterexample :
    get_advice (Except.ok (1/2)) (Except.ok "ok") sampleInput =
      Except.ok { predicted_health_impact := 1/2, alert_level := "safe",
                  natural_language_tip := "ok", optional_action := none } ∧
    ¬ ((1 : ℚ)/2 ≤ 0.15) := by
  have hr : roundTo5 (1/2 : ℚ) = 1/2 := by
    unfold roundTo5
    norm_num [round_eq]
  constructor
  · simp only [get_advice, get_gemini_advice, sampleInput, hr]
    rw [show alertPair 30 none = ("safe", none) from rfl]
  · norm_num

/-- C1 (amended): every Advisory produced by the AdvisoryGenerator
(`get_gemini_advice`), on its success path and on its fallback path, has
`predictedHealthImpact` in `[0, 0.15]`; the `/api/advice` success response
instead carries the injected model's prediction rounded to five decimals
with no clamping, so it lies in the interval only when that rounded
prediction does. -/
theorem C1_theorem (battery_temp ambient_temp : ℚ) (device_state : String)
    (battery_level : ℤ) (cpu_temp : Option ℚ) (service : Except String String)
    (m : ℚ) (input : SensorInput) :
    (0 ≤ (get_gemini_advice battery_temp ambient_temp device_state battery_level
            cpu_temp service).predicted_health_impact ∧
      (get_gemini_advice battery_temp ambient_temp device_state battery_level
            cpu_temp service).predicted_health_impact ≤ 0.15) ∧
    Except.map (fun r => r.predicted_health_impact)
        (get_advice (Except.ok m) service input) = Except.ok (roundTo5 m) := by
  refine ⟨?_, rfl⟩
  rcases service with err | text
  · rw [gemini_error_eq]
    split_ifs <;> exact ⟨by norm_num, by norm_num⟩
  · show 0 ≤ min (impactScore battery_temp device_state cpu_temp) 0.15 ∧
      min (impactScore battery_temp device_state cpu_temp) 0.15 ≤ 0.15
    exact ⟨le_min (impactScore_nonneg battery_temp device_state cpu_temp) (by norm_num),
      min_le_right _ _⟩

/-- C2 (counterexample): the claim that `cpuTemp > 85` forces alert level
"danger" regardless of variant is false — the fallback variant ignores
`cpuTemp`: at `batteryTemp = 30, cpuTemp = 90` it answers "safe". -/
theorem C2_counterexample :
    (get_gemini_advice 30 25 "idle" 75 (some 90) (Except.error "x")).alert_level = "safe" ∧
    (85 : ℚ) < 90 ∧ ¬ ((45 : ℚ) < 30) ∧ ("safe" : String) ≠ "danger" := by
  refine ⟨by decide, by norm_num, by norm_num, by decide⟩

/-- C2 (amended): whenever `batteryTemp > 45` or `cpuTemp` is present with
`cpuTemp > 85`, the primary (success-path) variant answers "danger"; the
fallback variant answers "danger" exactly when `batteryTemp > 40`, so it
also answers "danger" when `batteryTemp > 45` but not under the
cpu-temperature trigger alone. -/
theorem C2_theorem (battery_temp ambient_temp : ℚ) (device_state : String)
    (battery_level : ℤ) (cpu_temp : Option ℚ) (text err : String)
    (h : battery_temp > 45 ∨ ∃ c, cpu_temp = some c ∧ c > 85) :
    (get_gemini_advice battery_temp ambient_temp device_state battery_level cpu_temp
        (Except.ok text)).alert_level = "danger" ∧
    ((get_gemini_advice battery_temp ambient_temp device_state battery_level cpu_temp
        (Except.error err)).alert_level = "danger" ↔ battery_temp > 40) := by
  constructor
  · show (alertPair battery_temp cpu_temp).1 = "danger"
    have hd : battery_temp > 45 ∨ cpuCheck cpu_temp 85 := by
      rcases h with h | ⟨c, rfl, h85⟩
      · exact Or.inl h
      · exact Or.inr ((cpuCheck_some_iff c 85).mpr
          ⟨(show (0:ℚ) < c by linarith).ne', h85⟩)
    unfold alertPair
    rw [if_pos hd]
  · rw [gemini_error_eq]
    split_ifs with h40
    · exact iff_of_true rfl h40
    · exact iff_of_false (by decide) h40

/-- C2 (witness): concrete instance at `batteryTemp = 46, cpuTemp = 90`. -/
theorem C2_witness :
    (get_gemini_advice 46 25 "idle" 75 (some 90) (Except.ok "t")).alert_level = "danger" ∧
    ((get_gemini_advice 46 25 "idle" 75 (some 90) (Except.error "e")).alert_level = "danger" ↔
      (46 : ℚ) > 40) :=
  C2_theorem 46 25 "idle" 75 (some 90) "t" "e" (Or.inl (by norm_num))

/-- C3: the fallback variant is total (the Lean embedding returns a plain
`Advice`, mirroring that no exception can escape the `except` branch) and
returns exactly one of two results: for `batteryTemp > 40` the danger
record with action "Stop charging and close heavy applications" and
impact `0.1`; otherwise the safe record with no action and impact
`0.02` — for every input, including absent `cpuTemp`. -/
theorem C3_theorem (battery_temp ambient_temp : ℚ) (device_state : String)
    (battery_level : ℤ) (cpu_temp : Option ℚ) (err : String) :
    (battery_temp > 40 ∧
      get_gemini_advice battery_temp ambient_temp device_state battery_level cpu_temp
          (Except.error err) =
        { natural_language_tip := fallbackDangerTip
          alert_level := "danger"
          optional_action := some "Stop charging and close heavy applications"
          predicted_health_impact := 0.1 }) ∨
    (battery_temp ≤ 40 ∧
      get_gemini_advice battery_temp ambient_temp device_state battery_level cpu_temp
          (Except.error err) =
        { natural_language_tip := fallbackSafeTip
          alert_level := "safe"
          optional_action := none
          predicted_health_impact := 0.02 }) := by
  rw [gemini_error_eq]
  split_ifs with h
  · exact Or.inl ⟨h, rfl⟩
  · exact Or.inr ⟨not_lt.mp h, rfl⟩

/-- C4: the health-impact score computed on the primary advisory path
equals the spec's deterministic rule — `max(0, batteryTemp − 25) * 0.003`,
plus `0.02` when charging with `batteryTemp > 30`, plus
`max(0, cpuTemp − 60) * 0.001` when `cpuTemp` is present, the sum clamped
to `[0, 0.15]` — for every combination of inputs. -/
theorem C4_theorem (battery_temp ambient_temp : ℚ) (device_state : String)
    (battery_level : ℤ) (cpu_temp : Option ℚ) (text : String) :
    (get_gemini_advice battery_temp ambient_temp device_state battery_level cpu_temp
        (Except.ok text)).predicted_health_impact =
      specImpactRule battery_temp device_state cpu_temp := by
  show min (impactScore battery_temp device_state cpu_temp) 0.15 = _
  unfold specImpactRule
  rw [← impactScore_eq_base]
  rw [max_eq_left (impactScore_nonneg battery_temp device_state cpu_temp)]

/-- C5 (counterexample): the claim that `38 < batteryTemp ≤ 45` with
`cpuTemp` absent or at most 85 yields "warning" for either variant is
false — the fallback variant at `batteryTemp = 42` answers "danger". -/
theorem C5_counterexample :
    (get_gemini_advice 42 25 "idle" 75 none (Except.error "x")).alert_level = "danger" ∧
    (38 : ℚ) < 42 ∧ (42 : ℚ) ≤ 45 ∧ ("danger" : String) ≠ "warning" := by
  refine ⟨by decide, by norm_num, by norm_num, by decide⟩

/-- C5 (amended): for `38 < batteryTemp ≤ 45` with `cpuTemp` absent or at
most 85, the primary (success-path) variant answers "warning"; the
fallback variant instead answers "danger" when `batteryTemp > 40` and
"safe" otherwise. -/
theorem C5_theorem (battery_temp ambient_temp : ℚ) (device_state : String)
    (battery_level : ℤ) (cpu_temp : Option ℚ) (text err : String)
    (h1 : 38 < battery_temp) (h2 : battery_temp ≤ 45)
    (h3 : ∀ c, cpu_temp = some c → c ≤ 85) :
    (get_gemini_advice battery_temp ambient_temp device_state battery_level cpu_temp
        (Except.ok text)).alert_level = "warning" ∧
    (get_gemini_advice battery_temp ambient_temp device_state battery_level cpu_temp
        (Except.error err)).alert_level =
      (if battery_temp > 40 then "danger" else "safe") := by
  constructor
  · show (alertPair battery_temp cpu_temp).1 = "warning"
    have hnd : ¬ (battery_temp > 45 ∨ cpuCheck cpu_temp 85) := by
      rintro (h | hcpu)
      · linarith
      · rcases cpu_temp with _ | c
        · exact cpuCheck_not_none 85 hcpu
        · obtain ⟨-, h85⟩ := (cpuCheck_some_iff c 85).mp hcpu
          have := h3 c rfl
          linarith
    unfold alertPair
    rw [if_neg hnd, if_pos (Or.inl h1)]
  · rw [gemini_error_eq]
    split_ifs <;> rfl

/-- C5 (witness): concrete instance at `batteryTemp = 40`, `cpuTemp`
absent. -/
theorem C5_witness :
    (get_gemini_advice 40 25 "idle" 75 none (Except.ok "t")).alert_level = "warning" ∧
    (get_gemini_advice 40 25 "idle" 75 none (Except.error "e")).alert_level =
      (if (40 : ℚ) > 40 then "danger" else "safe") :=
  C5_theorem 40 25 "idle" 75 none "t" "e" (by norm_num) (by norm_num)
    (fun c h => nomatch h)

/-- C6 (counterexample): the claim that a failing predictive model leads
to the deterministic rule score being substituted is false — when the
model stage raises, the handler returns an HTTP 500 error and no Advisory
is produced. -/
theorem C6_counterexample :
    get_advice (Except.error "model raised") (Except.ok "tip") sampleInput =
      Except.error 500 ∧
    (get_advice (Except.error "model raised") (Except.ok "tip") sampleInput).isOk = false :=
  ⟨rfl, rfl⟩

/-- C6 (amended): whenever the injected model stage raises during an
advisory request, `/api/advice` surfaces the failure to the caller as an
HTTP 500 request error; no fallback to the deterministic rule score
occurs and no Advisory is produced, for every input and every service
outcome. -/
theorem C6_theorem (e : String) (service : Except String String) (input : SensorInput) :
    get_advice (Except.error e) service input = Except.error 500 := rfl

/-- C7: temperature acquisition is total (the embedding returns a plain
record) and every returned snapshot has all three categories populated; on
the provider path a category missed by both providers is derived — cpu as
45.0, battery as cpu×0.8, system as cpu×0.7 — while provider values are
kept. -/
theorem C7_theorem (available : Bool) (ohm : Except Unit (List Sensor))
    (acpi : Except Unit (Option ℚ)) (base_temp : ℚ) :
    ((get_temperature_info available ohm acpi base_temp).cpu.isSome ∧
      (get_temperature_info available ohm acpi base_temp).battery.isSome ∧
      (get_temperature_info available ohm acpi base_temp).system.isSome) ∧
    (get_temperature_info true ohm acpi base_temp).cpu =
      some ((providerTemps ohm acpi).cpu.getD 45) ∧
    (get_temperature_info true ohm acpi base_temp).battery =
      some ((providerTemps ohm acpi).battery.getD
        ((providerTemps ohm acpi).cpu.getD 45 * 0.8)) ∧
    (get_temperature_info true ohm acpi base_temp).system =
      some ((providerTemps ohm acpi).system.getD
        ((providerTemps ohm acpi).cpu.getD 45 * 0.7)) := by
  refine ⟨?_, ?_, ?_, ?_⟩
  · cases available
    · simp [get_temperature_info, simulatedTemps]
    · simp [get_temperature_info, fillTemps_eq]
  · simp [get_temperature_info, fillTemps_eq]
  · simp [get_temperature_info, fillTemps_eq]
  · simp [get_temperature_info, fillTemps_eq]

/-- C8: when the OpenHardwareMonitor provider fails and the ACPI zone
reports raw value `raw` (tenths of Kelvin), the cascade stores
`raw/10 − 273.15` in the system category and leaves cpu and battery
untouched; at `raw = 3000` the resulting snapshot's system temperature is
`26.85 °C`, within the claimed `±0.01`. -/
theorem C8_theorem (raw : ℚ) :
    (providerTemps (Except.error ()) (Except.ok (some raw))).system =
      some (raw / 10 - 273.15) ∧
    (providerTemps (Except.error ()) (Except.ok (some raw))).cpu = none ∧
    (providerTemps (Except.error ()) (Except.ok (some raw))).battery = none ∧
    (get_temperature_info true (Except.error ()) (Except.ok (some 3000)) 0).system =
      some 26.85 ∧
    |(get_temperature_info true (Except.error ()) (Except.ok (some 3000)) 0).system.getD 0
      - 26.85| ≤ 0.01 := by
  have h : (get_temperature_info true (Except.error ()) (Except.ok (some 3000)) 0).system =
      some ((3000 : ℚ) / 10 - 273.15) := rfl
  refine ⟨rfl, rfl, rfl, ?_, ?_⟩
  · rw [h, show (3000 : ℚ) / 10 - 273.15 = 26.85 by norm_num]
  · rw [h, Option.getD_some, show (3000 : ℚ) / 10 - 273.15 - 26.85 = 0 by norm_num,
      abs_zero]
    norm_num

/-- C9: on the success path, alert level and recommended action do not
depend on the text returned by the external reasoning service — two runs
with identical conditions and different service texts agree on both. -/
theorem C9_theorem (battery_temp ambient_temp : ℚ) (device_state : String)
    (battery_level : ℤ) (cpu_temp : Option ℚ) (t1 t2 : String) :
    (get_gemini_advice battery_temp ambient_temp device_state battery_level cpu_temp
        (Except.ok t1)).alert_level =
      (get_gemini_advice battery_temp ambient_temp device_state battery_level cpu_temp
        (Except.ok t2)).alert_level ∧
    (get_gemini_advice battery_temp ambient_temp device_state battery_level cpu_temp
        (Except.ok t1)).optional_action =
      (get_gemini_advice battery_temp ambient_temp device_state battery_level cpu_temp
        (Except.ok t2)).optional_action :=
  ⟨rfl, rfl⟩

/-- C10: the fallback variant never returns "warning" — its alert level is
"safe" or "danger" for every input. -/
theorem C10_theorem (battery_temp ambient_temp : ℚ) (device_state : String)
    (battery_level : ℤ) (cpu_temp : Option ℚ) (err : String) :
    ((get_gemini_advice battery_temp ambient_temp device_state battery_level cpu_temp
        (Except.error err)).alert_level = "safe" ∨
      (get_gemini_advice battery_temp ambient_temp device_state battery_level cpu_temp
        (Except.error err)).alert_level = "danger") ∧
    (get_gemini_advice battery_temp ambient_temp device_state battery_level cpu_temp
        (Except.error err)).alert_level ≠ "warning" := by
  rw [gemini_error_eq]
  split_ifs
  · exact ⟨Or.inr rfl, by decide⟩
  · exact ⟨Or.inl rfl, by decide⟩

end ThermoSense
